import Mathlib

/-!
Verification development for the urdf-visualizer-pyqt repository.

The Python sources are shallowly embedded: pure functions become Lean
functions, exceptions become `Option`/`Except` results, the OpenGL widget's
recursive link traversal becomes a fuel-indexed function, and numpy 4x4
float matrices become a structure of 16 real entries.  Python float values
are idealised as exact numbers: string-to-number parsing (`float(x)`)
yields exact rationals on plain decimal literals (no exponent/inf/nan
forms, which no claim exercises), and all geometry arithmetic is over `ℝ`.
-/

/-! ## math_utils.py -/

/-- The characters of a whitespace-separated token list, as Python's
`str.split()` (no arguments) produces it: runs of whitespace separate
tokens, leading/trailing whitespace is ignored (which also covers the
preceding `.strip()`).  Structural accumulator form so that it evaluates
by kernel reduction. -/
def split_ws_aux : List Char → List Char → List (List Char)
  | [], cur => if cur = [] then [] else [cur.reverse]
  | c :: rest, cur =>
    if c.isWhitespace then
      if cur = [] then split_ws_aux rest []
      else cur.reverse :: split_ws_aux rest []
    else split_ws_aux rest (c :: cur)

/-- `text.strip().split()` from `MathUtils.parse_vector3`. -/
def str_tokens (s : String) : List String :=
  (split_ws_aux s.data []).map (fun cs => String.mk cs)

/-- Decimal digit run to a natural number; `none` on a non-digit. -/
def digits_val (cs : List Char) : Option ℕ :=
  cs.foldlM (fun acc c => if c.isDigit then some (10 * acc + (c.toNat - 48)) else none) 0

/-- Unsigned part of Python `float(x)`: digits, an optional dot, digits
(at least one digit somewhere), as an exact rational. -/
def py_float_core (cs : List Char) : Option ℚ :=
  let ip := cs.takeWhile (fun c => c ≠ '.')
  match cs.dropWhile (fun c => c ≠ '.') with
  | [] =>
    match ip with
    | [] => none
    | _ => (digits_val ip).map (fun n => (n : ℚ))
  | _ :: fp =>
    match ip, fp with
    | [], [] => none
    | [], _ =>
      (digits_val fp).map (fun f => (f : ℚ) / (10 : ℚ) ^ fp.length)
    | _, [] => (digits_val ip).map (fun n => (n : ℚ))
    | _, _ =>
      match digits_val ip, digits_val fp with
      | some n, some f => some ((n : ℚ) + (f : ℚ) / (10 : ℚ) ^ fp.length)
      | _, _ => none

/-- Python `float(x)` on a plain decimal literal (optional sign, digits,
optional fractional part), modelled as an exact rational; `none` models the
`ValueError` any other string raises. -/
def py_float (s : String) : Option ℚ :=
  match s.data with
  | [] => none
  | c :: rest =>
    if c = '-' then (py_float_core rest).map (fun q => -q)
    else if c = '+' then py_float_core rest
    else py_float_core s.data

/-- The list comprehension `[float(x) for x in tokens]`: the first failing
conversion aborts the whole comprehension (Python's exception propagates). -/
def float_list (pf : String → Option ℚ) : List String → Option (List ℚ)
  | [] => some []
  | t :: ts =>
    match pf t with
    | none => none
    | some q =>
      match float_list pf ts with
      | none => none
      | some qs => some (q :: qs)

/-- `MathUtils.parse_vector3`, generic in the token-to-number conversion:
the parsed tokens when every token converts, and the zero 3-vector when the
`try` block's exception is caught. -/
def parse_vector3_with (pf : String → Option ℚ) (text : String) : List ℚ :=
  match float_list pf (str_tokens text) with
  | some vs => vs
  | none => [0, 0, 0]

/-- `MathUtils.parse_vector3` with the Python `float` conversion. -/
def parse_vector3 (text : String) : List ℚ :=
  parse_vector3_with py_float text

/-- A parsed vector as real numbers (numpy arrays hold floats; values are
idealised as exact reals). -/
def vec3_real (text : String) : List ℝ :=
  (parse_vector3 text).map (fun q => (q : ℝ))

/-- A 3x3 matrix of reals, the shape `MathUtils.rpy_to_matrix` returns. -/
@[ext]
structure M3 where
  (a00 a01 a02 a10 a11 a12 a20 a21 a22 : ℝ)

noncomputable def M3.mul (A B : M3) : M3 :=
  ⟨A.a00 * B.a00 + A.a01 * B.a10 + A.a02 * B.a20,
   A.a00 * B.a01 + A.a01 * B.a11 + A.a02 * B.a21,
   A.a00 * B.a02 + A.a01 * B.a12 + A.a02 * B.a22,
   A.a10 * B.a00 + A.a11 * B.a10 + A.a12 * B.a20,
   A.a10 * B.a01 + A.a11 * B.a11 + A.a12 * B.a21,
   A.a10 * B.a02 + A.a11 * B.a12 + A.a12 * B.a22,
   A.a20 * B.a00 + A.a21 * B.a10 + A.a22 * B.a20,
   A.a20 * B.a01 + A.a21 * B.a11 + A.a22 * B.a21,
   A.a20 * B.a02 + A.a21 * B.a12 + A.a22 * B.a22⟩

noncomputable instance : Mul M3 := ⟨M3.mul⟩

instance : One M3 := ⟨⟨1, 0, 0, 0, 1, 0, 0, 0, 1⟩⟩

noncomputable def M3.add (A B : M3) : M3 :=
  ⟨A.a00 + B.a00, A.a01 + B.a01, A.a02 + B.a02,
   A.a10 + B.a10, A.a11 + B.a11, A.a12 + B.a12,
   A.a20 + B.a20, A.a21 + B.a21, A.a22 + B.a22⟩

noncomputable instance : Add M3 := ⟨M3.add⟩

noncomputable def M3.smul (s : ℝ) (A : M3) : M3 :=
  ⟨s * A.a00, s * A.a01, s * A.a02,
   s * A.a10, s * A.a11, s * A.a12,
   s * A.a20, s * A.a21, s * A.a22⟩

noncomputable instance : SMul ℝ M3 := ⟨M3.smul⟩

theorem M3.mul_def (A B : M3) : A * B = M3.mul A B := rfl

theorem M3.add_def (A B : M3) : A + B = M3.add A B := rfl

theorem M3.smul_def (s : ℝ) (A : M3) : s • A = M3.smul s A := rfl

theorem M3.one_def : (1 : M3) = ⟨1, 0, 0, 0, 1, 0, 0, 0, 1⟩ := rfl

/-- A 4x4 homogeneous transform, the numpy array the widget composes with
`@`. -/
@[ext]
structure M4 where
  (b00 b01 b02 b03 b10 b11 b12 b13 b20 b21 b22 b23 b30 b31 b32 b33 : ℝ)

noncomputable def M4.mul (A B : M4) : M4 :=
  ⟨A.b00 * B.b00 + A.b01 * B.b10 + A.b02 * B.b20 + A.b03 * B.b30,
   A.b00 * B.b01 + A.b01 * B.b11 + A.b02 * B.b21 + A.b03 * B.b31,
   A.b00 * B.b02 + A.b01 * B.b12 + A.b02 * B.b22 + A.b03 * B.b32,
   A.b00 * B.b03 + A.b01 * B.b13 + A.b02 * B.b23 + A.b03 * B.b33,
   A.b10 * B.b00 + A.b11 * B.b10 + A.b12 * B.b20 + A.b13 * B.b30,
   A.b10 * B.b01 + A.b11 * B.b11 + A.b12 * B.b21 + A.b13 * B.b31,
   A.b10 * B.b02 + A.b11 * B.b12 + A.b12 * B.b22 + A.b13 * B.b32,
   A.b10 * B.b03 + A.b11 * B.b13 + A.b12 * B.b23 + A.b13 * B.b33,
   A.b20 * B.b00 + A.b21 * B.b10 + A.b22 * B.b20 + A.b23 * B.b30,
   A.b20 * B.b01 + A.b21 * B.b11 + A.b22 * B.b21 + A.b23 * B.b31,
   A.b20 * B.b02 + A.b21 * B.b12 + A.b22 * B.b22 + A.b23 * B.b32,
   A.b20 * B.b03 + A.b21 * B.b13 + A.b22 * B.b23 + A.b23 * B.b33,
   A.b30 * B.b00 + A.b31 * B.b10 + A.b32 * B.b20 + A.b33 * B.b30,
   A.b30 * B.b01 + A.b31 * B.b11 + A.b32 * B.b21 + A.b33 * B.b31,
   A.b30 * B.b02 + A.b31 * B.b12 + A.b32 * B.b22 + A.b33 * B.b32,
   A.b30 * B.b03 + A.b31 * B.b13 + A.b32 * B.b23 + A.b33 * B.b33⟩

noncomputable instance : Mul M4 := ⟨M4.mul⟩

instance : One M4 := ⟨⟨1, 0, 0, 0, 0, 1, 0, 0, 0, 0, 1, 0, 0, 0, 0, 1⟩⟩

theorem M4.mul_unfold (A B : M4) : A * B = M4.mul A B := rfl

theorem M4.one_unfold : (1 : M4) = ⟨1, 0, 0, 0, 0, 1, 0, 0, 0, 0, 1, 0, 0, 0, 0, 1⟩ := rfl

theorem M4.one_mul (A : M4) : (1 : M4) * A = A := by
  show M4.mul ⟨1, 0, 0, 0, 0, 1, 0, 0, 0, 0, 1, 0, 0, 0, 0, 1⟩ A = A
  ext <;> simp [M4.mul]

theorem M4.mul_one (A : M4) : A * (1 : M4) = A := by
  show M4.mul A ⟨1, 0, 0, 0, 0, 1, 0, 0, 0, 0, 1, 0, 0, 0, 0, 1⟩ = A
  ext <;> simp [M4.mul]

/-- `MathUtils.rpy_to_matrix`: roll-pitch-yaw to a rotation matrix,
`Rz @ Ry @ Rx`. -/
noncomputable def rpy_to_matrix (r p y : ℝ) : M3 :=
  let Rz : M3 := ⟨Real.cos y, -Real.sin y, 0, Real.sin y, Real.cos y, 0, 0, 0, 1⟩
  let Ry : M3 := ⟨Real.cos p, 0, Real.sin p, 0, 1, 0, -Real.sin p, 0, Real.cos p⟩
  let Rx : M3 := ⟨1, 0, 0, 0, Real.cos r, -Real.sin r, 0, Real.sin r, Real.cos r⟩
  Rz * Ry * Rx

/-- `MathUtils.create_transform`: a 4x4 transform from an xyz translation
and rpy rotation.  `r, p, y = rpy` needs exactly three components and
`T[:3, 3] = xyz` needs three (or, by numpy broadcasting, one); any other
shape raises, modelled as `none`. -/
noncomputable def create_transform (xyz rpy : List ℝ) : Option M4 :=
  match rpy with
  | [r, p, yw] =>
    let R := rpy_to_matrix r p yw
    match xyz with
    | [x, y, z] =>
      some ⟨R.a00, R.a01, R.a02, x,
            R.a10, R.a11, R.a12, y,
            R.a20, R.a21, R.a22, z,
            0, 0, 0, 1⟩
    | [x] =>
      some ⟨R.a00, R.a01, R.a02, x,
            R.a10, R.a11, R.a12, x,
            R.a20, R.a21, R.a22, x,
            0, 0, 0, 1⟩
    | _ => none
  | _ => none

/-! ## urdf_model.py -/

/-- `URDFOrigin`: xyz/rpy kept as strings, parsed at use sites. -/
@[ext]
structure URDFOrigin where
  xyz : String
  rpy : String
deriving DecidableEq

/-- The constructor defaults `URDFOrigin()`. -/
def URDFOrigin.default : URDFOrigin := ⟨"0 0 0", "0 0 0"⟩

/-- `URDFGeometry`: constructor normalises `filename or ""`, `size or []`,
`scale or ""`. -/
structure URDFGeometry where
  type : String
  filename : String
  size : List String
  scale : String
deriving DecidableEq

/-- `URDFMaterial`: name (None for anonymous inline materials) and an RGBA
colour normalised by the constructor. -/
structure URDFMaterial where
  name : Option String
  color : List ℚ
deriving DecidableEq

/-- The `URDFMaterial` constructor body: a colour of at least three
channels is truncated/padded to RGBA (alpha defaults to 1.0), anything else
falls back to the default light gray. -/
def mk_material (name : Option String) (color : List ℚ) : URDFMaterial :=
  if 3 ≤ color.length then ⟨name, color.take 3 ++ [color.getD 3 1]⟩
  else ⟨name, [0.8, 0.8, 0.8, 1]⟩

structure URDFVisual where
  geometry : URDFGeometry
  origin : URDFOrigin
  material : Option URDFMaterial
deriving DecidableEq

structure URDFLink where
  name : String
  visual : Option URDFVisual
deriving DecidableEq

structure URDFJoint where
  name : String
  type : String
  parent : String
  child : String
  axis : String
  origin : URDFOrigin
deriving DecidableEq

/-- `URDFModel`: the name-keyed dicts in insertion order (Python dicts
preserve insertion order; re-inserting a key keeps its position, see
`dict_insert_by`). -/
structure URDFModel where
  links : List URDFLink
  joints : List URDFJoint
  materials : List (String × URDFMaterial)
deriving DecidableEq

/-- Python dict assignment `d[key] = v`: overwrite in place when the key
exists, append otherwise. -/
def dict_insert_by {α : Type} (key : α → String) (l : List α) (v : α) : List α :=
  if l.any (fun x => key x = key v) then
    l.map (fun x => if key x = key v then v else x)
  else l ++ [v]

/-- `URDFModel.get_joints`: `list(self.joints.values())`. -/
def get_joints (m : URDFModel) : List URDFJoint := m.joints

/-- The names appearing as some joint's child, `{j.child for j in joints}`
of `URDFModel.get_root` (list membership models set membership). -/
def child_names (m : URDFModel) : List String := m.joints.map URDFJoint.child

/-- The loop of `URDFModel.get_root`: first link (insertion order) whose
name is not some joint's child. -/
def find_root (children : List String) : List URDFLink → Option String
  | [] => none
  | l :: ls => if l.name ∈ children then find_root children ls else some l.name

/-- `URDFModel.get_root`. -/
def get_root (m : URDFModel) : Option String :=
  find_root (child_names m) m.links

/-! ## opengl_widget.py — kinematic tree walker -/

/-- `np.linalg.norm` of a float vector. -/
noncomputable def vec_norm (l : List ℝ) : ℝ :=
  Real.sqrt ((l.map (fun x => x * x)).sum)

/-- The 4x4 rotation array `R` built in `_compute_joint_transform` for
revolute/continuous joints (axis components already normalised). -/
noncomputable def joint_rotation (ux uy uz angle : ℝ) : M4 :=
  let c := Real.cos angle
  let s := Real.sin angle
  ⟨c + ux * ux * (1 - c), ux * uy * (1 - c) - uz * s, ux * uz * (1 - c) + uy * s, 0,
   uy * ux * (1 - c) + uz * s, c + uy * uy * (1 - c), uy * uz * (1 - c) - ux * s, 0,
   uz * ux * (1 - c) - uy * s, uz * uy * (1 - c) + ux * s, c + uz * uz * (1 - c), 0,
   0, 0, 0, 1⟩

/-- The prismatic translation `trans` (identity with `trans[:3, 3] =
axis * d`). -/
noncomputable def joint_translation (tx ty tz : ℝ) : M4 :=
  ⟨1, 0, 0, tx, 0, 1, 0, ty, 0, 0, 1, tz, 0, 0, 0, 1⟩

/-- `URDFGLWidget._compute_joint_transform`.  `angles` is the widget's
`joint_angles` dict (`get` with default `0.0`).  The caught exception
around the origin parse keeps the parent transform; the uncaught axis
unpack error for a non-3 axis of significant norm, and a bad prismatic
axis shape, are `none`. -/
noncomputable def compute_joint_transform (angles : List (String × ℝ)) (joint : URDFJoint)
    (parent_transform : M4) : Option M4 :=
  let j_xyz : List ℝ := if joint.origin.xyz ≠ "" then vec3_real joint.origin.xyz else [0, 0, 0]
  let j_rpy : List ℝ := if joint.origin.rpy ≠ "" then vec3_real joint.origin.rpy else [0, 0, 0]
  let transform : M4 :=
    match create_transform j_xyz j_rpy with
    | some ct => parent_transform * ct
    | none => parent_transform
  let angle : ℝ := ((angles.lookup joint.name).getD 0)
  let axis : List ℝ := if joint.axis ≠ "" then vec3_real joint.axis else [0, 0, 1]
  if joint.type = "revolute" ∨ joint.type = "continuous" then
    let axis_norm := vec_norm axis
    if 1e-6 < axis_norm then
      match axis with
      | [ax, ay, az] =>
        some (transform * joint_rotation (ax / axis_norm) (ay / axis_norm) (az / axis_norm) angle)
      | _ => none
    else some (transform * joint_rotation 0 0 1 angle)
  else if joint.type = "prismatic" then
    match axis with
    | [ax, ay, az] => some (transform * joint_translation (ax * angle) (ay * angle) (az * angle))
    | [ax] => some (transform * joint_translation (ax * angle) (ax * angle) (ax * angle))
    | _ => none
  else some transform

/-- The `for joint in get_joints(): if joint.parent == link_name` loop of
`_draw_link`, with `draw` the recursive call at the remaining recursion
budget; collects the (link name, draw transform) pairs issued below this
link in order. -/
noncomputable def draw_joints (angles : List (String × ℝ))
    (draw : String → M4 → Option (List (String × M4))) :
    List URDFJoint → String → M4 → Option (List (String × M4))
  | [], _, _ => some []
  | j :: js, link_name, current =>
    if j.parent = link_name then
      match compute_joint_transform angles j current with
      | none => none
      | some child_transform =>
        match draw j.child child_transform with
        | none => none
        | some sub =>
          match draw_joints angles draw js link_name current with
          | none => none
          | some rest => some (sub ++ rest)
    else draw_joints angles draw js link_name current

/-- `URDFGLWidget._draw_link`, fuel-indexed (the fuel bounds the recursion
depth; the source recursion has no other bound and no visited-link set).
Returns the draw calls (link name, transform) issued, or `none` when the
fuel runs out or a joint transform raises.  Note that `current`, used for
the children, includes the visual origin of the link's own visual when it
has one. -/
noncomputable def draw_link (m : URDFModel) (angles : List (String × ℝ)) :
    ℕ → String → M4 → Option (List (String × M4))
  | 0, _, _ => none
  | n + 1, link_name, parent_transform =>
    let link := m.links.find? (fun l => l.name = link_name)
    let current : M4 :=
      match link with
      | some l =>
        match l.visual with
        | some v =>
          let xyz := if v.origin.xyz ≠ "" then vec3_real v.origin.xyz else [0, 0, 0]
          let rpy := if v.origin.rpy ≠ "" then vec3_real v.origin.rpy else [0, 0, 0]
          match create_transform xyz rpy with
          | some t => parent_transform * t
          | none => parent_transform
        | none => parent_transform
      | none => parent_transform
    let draws : List (String × M4) :=
      match link with
      | some l => match l.visual with
        | some _ => [(link_name, current)]
        | none => []
      | none => []
    match draw_joints angles (draw_link m angles n) (get_joints m) link_name current with
    | none => none
    | some rest => some (draws ++ rest)

/-! ## scene_manager.py -/

/-- 3-vectors for scene bounds and camera centers. -/
abbrev Vec3 := ℝ × ℝ × ℝ

def vmin (a b : Vec3) : Vec3 := (min a.1 b.1, min a.2.1 b.2.1, min a.2.2 b.2.2)

def vmax (a b : Vec3) : Vec3 := (max a.1 b.1, max a.2.1 b.2.1, max a.2.2 b.2.2)

/-- The per-link extent a `calculate_scene_bounds` iteration appends to
`mins`/`maxs`: `none` when the link contributes nothing (no visual,
unresolved or unreferenced mesh, unparsable numeric field — the per-field
`except` branches).  A box size whose numeric tokens do not number exactly
three is also treated as no contribution (in the source such an extent
would make the final ragged `np.min` raise; no claim depends on it). -/
noncomputable def link_extent (provider : String → Option (Vec3 × Vec3)) (link : URDFLink) :
    Option (Vec3 × Vec3) :=
  match link.visual with
  | none => none
  | some v =>
    let geom := v.geometry
    if geom.type = "mesh" then
      if geom.filename ≠ "" then provider geom.filename else none
    else if geom.type = "box" then
      if geom.size ≠ [] then
        match float_list py_float geom.size with
        | some [a, b, c] =>
          some ((-(a : ℝ) / 2, -(b : ℝ) / 2, -(c : ℝ) / 2), ((a : ℝ) / 2, (b : ℝ) / 2, (c : ℝ) / 2))
        | _ => none
      else none
    else if geom.type = "sphere" then
      if geom.size ≠ [] then
        match py_float (geom.size.headD "") with
        | some r => some (((-(r : ℝ)), (-(r : ℝ)), (-(r : ℝ))), ((r : ℝ), (r : ℝ), (r : ℝ)))
        | none => none
      else none
    else if geom.type = "cylinder" then
      if 2 ≤ geom.size.length then
        match py_float (geom.size.headD ""), py_float ((geom.size.drop 1).headD "") with
        | some r, some l =>
          some (((-(r : ℝ)), (-(r : ℝ)), (-(l : ℝ) / 2)), ((r : ℝ), (r : ℝ), (l : ℝ) / 2))
        | _, _ => none
      else none
    else none

/-- The scene bounds `SceneManager` stores: center and radius. -/
structure SceneState where
  center : Vec3
  scene_radius : ℝ

/-- `SceneManager.calculate_scene_bounds`: aggregate all contributed
extents; with none, fall back to center `(0,0,0)` and radius `1.0`. -/
noncomputable def calculate_scene_bounds (m : URDFModel)
    (provider : String → Option (Vec3 × Vec3)) : SceneState :=
  match m.links.filterMap (link_extent provider) with
  | [] => ⟨(0, 0, 0), 1⟩
  | c :: cs =>
    let mins := cs.foldl (fun acc d => vmin acc d.1) c.1
    let maxs := cs.foldl (fun acc d => vmax acc d.2) c.2
    let center : Vec3 :=
      ((mins.1 + maxs.1) / 2, (mins.2.1 + maxs.2.1) / 2, (mins.2.2 + maxs.2.2) / 2)
    let dx := maxs.1 - mins.1
    let dy := maxs.2.1 - mins.2.1
    let dz := maxs.2.2 - mins.2.2
    ⟨center, Real.sqrt (dx * dx + dy * dy + dz * dz) / 2⟩

/-! ## camera.py and the widget's camera events -/

/-- `Camera.__init__` state. -/
structure Camera where
  distance : ℝ
  yaw : ℝ
  pitch : ℝ
  center : Vec3

/-- `Camera()` defaults. -/
def Camera.init : Camera := ⟨5, 45, 30, (0, 0, 0)⟩

/-- `np.clip(x, lo, hi)` = `minimum(hi, maximum(x, lo))`. -/
noncomputable def clip (x lo hi : ℝ) : ℝ := min hi (max x lo)

/-- The left-button (orbit) branch of `URDFGLWidget.mouseMoveEvent`
(lines 186-190): yaw and pitch move by half the pixel delta, pitch is then
clamped to `[-89, 89]` by `np.clip`. -/
noncomputable def mouse_move_orbit (cam : Camera) (dx dy : ℤ) : Camera :=
  { cam with
    yaw := cam.yaw + (dx : ℝ) * 0.5
    pitch := clip (cam.pitch + (dy : ℝ) * 0.5) (-89) 89 }

/-- `SceneManager.auto_fit_camera`: sets distance (clamped) and resets
yaw/pitch to the fixed defaults; the camera center is not written. -/
noncomputable def auto_fit_camera (scene : SceneState) (cam : Camera) : Camera :=
  { cam with
    distance := clip (scene.scene_radius * 2.0) 0.1 5000.0
    yaw := 45
    pitch := 20 }

/-- `URDFGLWidget.auto_fit_view` with a model loaded: recompute the scene
bounds, then auto-fit the camera. -/
noncomputable def auto_fit_view (m : URDFModel) (provider : String → Option (Vec3 × Vec3))
    (cam : Camera) : Camera :=
  auto_fit_camera (calculate_scene_bounds m provider) cam

/-! ## urdf_parser.py

XML elements are embedded as records of exactly the attributes and
sub-elements the parser reads: `Option` distinguishes a missing attribute
or sub-element (ElementTree `attrib[k]` raising `KeyError` / `find`
returning `None`) from a present one. -/

/-- A `<material>` element as `_load_materials` and `_parse_visual` read
it: the `name` attribute and an optional `<color>` child with an optional
`rgba` attribute. -/
structure XmlMaterialElem where
  name : Option String
  color : Option (Option String)
deriving DecidableEq

/-- The `<mesh>` element attributes `_parse_geometry` reads. -/
structure XmlMeshAttrs where
  filename : Option String
  scale : Option String
deriving DecidableEq

/-- The `<cylinder>` element attributes. -/
structure XmlCylAttrs where
  radius : Option String
  length : Option String
deriving DecidableEq

/-- A `<geometry>` element: at most the four shape children the parser
looks for (first match wins in the source's if/elif chain). -/
structure XmlGeometryElem where
  mesh : Option XmlMeshAttrs
  box : Option (Option String)
  cylinder : Option XmlCylAttrs
  sphere : Option (Option String)
deriving DecidableEq

/-- An `<origin>` element's attributes. -/
structure XmlOriginAttrs where
  xyz : Option String
  rpy : Option String
deriving DecidableEq

/-- A `<visual>` element. -/
structure XmlVisualElem where
  origin : Option XmlOriginAttrs
  material : Option XmlMaterialElem
  geometry : Option XmlGeometryElem
deriving DecidableEq

/-- A `<link>` element: its `name` attribute and optional `<visual>`. -/
structure XmlLinkElem where
  name : Option String
  visual : Option XmlVisualElem
deriving DecidableEq

/-- A `<joint>` element: attributes `name`/`type`, the `<parent>`/`<child>`
children's `link` attributes (outer `Option` = element missing, inner =
`link` attribute missing), the `<axis>` `xyz` attribute and the
`<origin>`. -/
structure XmlJointElem where
  name : Option String
  type : Option String
  parent : Option (Option String)
  child : Option (Option String)
  axis : Option (Option String)
  origin : Option XmlOriginAttrs
deriving DecidableEq

/-- A parsed document: `none` models markup `ET.parse` rejects. -/
structure XmlRoot where
  materials : List XmlMaterialElem
  links : List XmlLinkElem
  joints : List XmlJointElem
deriving DecidableEq

/-- `URDFParser._load_materials`: `name` is required (`KeyError`), the
colour falls back to default gray on a missing/invalid `rgba` or fewer
than 3 channels. -/
def load_materials (elems : List XmlMaterialElem) :
    Except String (List (String × URDFMaterial)) :=
  elems.foldlM
    (fun acc me =>
      match me.name with
      | none => .error "KeyError: name"
      | some nm =>
        let color : List ℚ :=
          match me.color with
          | some (some rgba) =>
            match float_list py_float (str_tokens rgba) with
            | some vals => if 3 ≤ vals.length then vals else [0.8, 0.8, 0.8, 1]
            | none => [0.8, 0.8, 0.8, 1]
          | _ => [0.8, 0.8, 0.8, 1]
        .ok (dict_insert_by Prod.fst acc (nm, mk_material (some nm) color)))
    []

/-- `URDFParser._parse_geometry`. -/
def parse_geometry (visual_elem : XmlVisualElem) : Option URDFGeometry :=
  match visual_elem.geometry with
  | none => none
  | some g =>
    match g.mesh with
    | some mesh => some ⟨"mesh", mesh.filename.getD "", [], mesh.scale.getD ""⟩
    | none =>
      match g.box with
      | some size => some ⟨"box", "", str_tokens (size.getD "1 1 1"), ""⟩
      | none =>
        match g.cylinder with
        | some cyl => some ⟨"cylinder", "", [cyl.radius.getD "0.1", cyl.length.getD "1.0"], ""⟩
        | none =>
          match g.sphere with
          | some sph => some ⟨"sphere", "", [sph.getD "0.1"], ""⟩
          | none => none

/-- `URDFParser._parse_visual`: origin attributes default, the material is
resolved inline-first then by reference into the already-parsed registry
(falling back to no material, never raising), and a missing geometry makes
the whole visual `None`. -/
def parse_visual (link_elem : XmlLinkElem) (materials : List (String × URDFMaterial)) :
    Option URDFVisual :=
  match link_elem.visual with
  | none => none
  | some v =>
    let origin_xyz := match v.origin with
      | some o => o.xyz.getD "0 0 0"
      | none => "0 0 0"
    let origin_rpy := match v.origin with
      | some o => o.rpy.getD "0 0 0"
      | none => "0 0 0"
    let material : Option URDFMaterial :=
      match v.material with
      | none => none
      | some me =>
        match me.color with
        | some (some rgba) =>
          match float_list py_float (str_tokens rgba) with
          | some color => some (mk_material me.name color)
          | none => none
        | some none => none
        | none =>
          match me.name with
          | some nm => materials.lookup nm
          | none => none
    match parse_geometry v with
    | none => none
    | some geometry => some ⟨geometry, ⟨origin_xyz, origin_rpy⟩, material⟩

/-- `URDFParser._parse_joint`: `name` is required (`attrib["name"]`
raises), `type` defaults to `"revolute"` (`attrib.get`), the `<parent>`
and `<child>` elements and their `link` attributes are required
(`find(...).attrib["link"]` raises either way), axis defaults to
`"0 0 1"` and origin to identity. -/
def parse_joint (joint_elem : XmlJointElem) : Except String URDFJoint :=
  match joint_elem.name with
  | none => .error "KeyError: name"
  | some name =>
    let type_ := joint_elem.type.getD "revolute"
    match joint_elem.parent with
    | none => .error "AttributeError: parent"
    | some none => .error "KeyError: parent link"
    | some (some parent) =>
      match joint_elem.child with
      | none => .error "AttributeError: child"
      | some none => .error "KeyError: child link"
      | some (some child) =>
        let axis := match joint_elem.axis with
          | some a => a.getD "0 0 1"
          | none => "0 0 1"
        let origin_xyz := match joint_elem.origin with
          | some o => o.xyz.getD "0 0 0"
          | none => "0 0 0"
        let origin_rpy := match joint_elem.origin with
          | some o => o.rpy.getD "0 0 0"
          | none => "0 0 0"
        .ok ⟨name, type_, parent, child, axis, ⟨origin_xyz, origin_rpy⟩⟩

/-- `URDFParser.load_model`: materials first, then links (the `name`
attribute is required), then joints; any structural error propagates and
no partially built model escapes. -/
def load_model (doc : Option XmlRoot) : Except String URDFModel :=
  match doc with
  | none => .error "ET.ParseError"
  | some root => do
    let mats ← load_materials root.materials
    let links ← root.links.foldlM
      (fun acc le =>
        match le.name with
        | none => .error "KeyError: link name"
        | some nm => .ok (dict_insert_by URDFLink.name acc ⟨nm, parse_visual le mats⟩))
      []
    let joints ← root.joints.foldlM
      (fun acc je => (parse_joint je).map (fun j => dict_insert_by URDFJoint.name acc j))
      []
    .ok ⟨links, joints, mats⟩

/-! ## urdf_visualizer_app.py -/

/-- The window state `load_urdf_dialog` touches: the installed model and
the status/info texts. -/
structure AppState where
  urdf_model : Option URDFModel
  status : String
  info : String

/-- `URDFVisualizerWindow.load_urdf_dialog` once a file is chosen: on a
parse error the `except` branch only updates the texts; on success the
model is installed only when it has links. -/
def load_urdf_dialog (st : AppState) (doc : Option XmlRoot) : AppState :=
  match load_model doc with
  | .error _ => { st with info := "Error loading URDF.", status := "Error loading model" }
  | .ok m =>
    if m.links ≠ [] then
      { st with urdf_model := some m, info := "Loaded", status := "Successfully loaded" }
    else
      { st with info := "URDF loaded but has no links or visuals.",
                status := "Model has no visual elements" }

/-! ## Spec-side closed forms (§4.2.1 of the spec) -/

/-- The skew-symmetric cross-product matrix of an axis, for the standard
axis-angle (Rodrigues) formula. -/
noncomputable def skew3 (x y z : ℝ) : M3 :=
  ⟨0, -z, y, z, 0, -x, -y, x, 0⟩

/-- The outer product of an axis with itself. -/
noncomputable def outer3 (x y z : ℝ) : M3 :=
  ⟨x * x, x * y, x * z, y * x, y * y, y * z, z * x, z * y, z * z⟩

/-- The standard closed-form axis-angle rotation (Rodrigues):
`cos θ · I + sin θ · [u]ₓ + (1 − cos θ) · uuᵀ`. -/
noncomputable def axis_angle (x y z θ : ℝ) : M3 :=
  Real.cos θ • (1 : M3) + Real.sin θ • skew3 x y z + (1 - Real.cos θ) • outer3 x y z

/-- A rotation as a homogeneous transform with zero translation. -/
noncomputable def to_homogeneous (R : M3) : M4 :=
  ⟨R.a00, R.a01, R.a02, 0,
   R.a10, R.a11, R.a12, 0,
   R.a20, R.a21, R.a22, 0,
   0, 0, 0, 1⟩

/-! ## Helper lemmas -/

theorem float_list_eq (pf : String → Option ℚ) (l : List String) :
    float_list pf l =
      (if l.all (fun t => (pf t).isSome) then some (l.map (fun t => (pf t).getD 0)) else none) := by
  induction l with
  | nil => simp [float_list]
  | cons t ts ih =>
    cases h : pf t with
    | none => simp [float_list, h]
    | some q =>
      rw [float_list, h, ih]
      by_cases hall : ts.all (fun t => (pf t).isSome) <;> simp [hall, h]

theorem find_root_none_iff (ch : List String) (ls : List URDFLink) :
    find_root ch ls = none ↔ ∀ l ∈ ls, l.name ∈ ch := by
  induction ls with
  | nil => simp [find_root]
  | cons l ls ih =>
    by_cases h : l.name ∈ ch <;> simp [find_root, h, ih]

theorem find_root_some_iff (ch : List String) (ls : List URDFLink) (n : String) :
    find_root ch ls = some n ↔
      ∃ pre l post, ls = pre ++ l :: post ∧ l.name = n ∧ l.name ∉ ch ∧
        ∀ lp ∈ pre, lp.name ∈ ch := by
  induction ls with
  | nil =>
    simp only [find_root]
    constructor
    · intro h; exact absurd h (by simp)
    · rintro ⟨pre, l, post, h, -⟩; exact absurd h (by simp)
  | cons l ls ih =>
    by_cases h : l.name ∈ ch
    · rw [find_root, if_pos h, ih]
      constructor
      · rintro ⟨pre, l', post, rfl, hn, hnot, hpre⟩
        exact ⟨l :: pre, l', post, rfl, hn, hnot, by
          intro lp hlp
          rcases List.mem_cons.mp hlp with rfl | hlp
          · exact h
          · exact hpre lp hlp⟩
      · rintro ⟨pre, l', post, heq, hn, hnot, hpre⟩
        cases pre with
        | nil =>
          simp only [List.nil_append] at heq
          cases heq
          exact absurd h hnot
        | cons x pre' =>
          simp only [List.cons_append, List.cons.injEq] at heq
          obtain ⟨rfl, rfl⟩ := heq
          exact ⟨pre', l', post, rfl, hn, hnot, fun lp hlp => hpre lp (List.mem_cons_of_mem _ hlp)⟩
    · rw [find_root, if_neg h]
      constructor
      · intro hs
        cases hs
        exact ⟨[], l, ls, rfl, rfl, h, by simp⟩
      · rintro ⟨pre, l', post, heq, hn, hnot, hpre⟩
        cases pre with
        | nil =>
          simp only [List.nil_append] at heq
          cases heq
          simp [hn]
        | cons x pre' =>
          simp only [List.cons_append, List.cons.injEq] at heq
          obtain ⟨rfl, rfl⟩ := heq
          exact absurd (hpre l (by simp)) h

/-- The clamp `np.clip(x, -89, 89)` lands in the closed interval. -/
theorem clip_pitch_mem (x : ℝ) : -89 ≤ clip x (-89) 89 ∧ clip x (-89) 89 ≤ 89 :=
  ⟨le_min (by norm_num) (le_max_right _ _), min_le_left _ _⟩

/-! ## Claims -/

/-- Claim C10: `parse_vector3` is total — it returns the parsed tokens
when every whitespace-separated token converts to a number (a list of the
token count, whatever that count is), and the zero 3-vector otherwise,
for any token-to-number conversion `pf` (in the source, Python `float`). -/
theorem c10_parse_vector3_total (pf : String → Option ℚ) (s : String) :
    (parse_vector3_with pf s =
      (if (str_tokens s).all (fun t => (pf t).isSome) then
        (str_tokens s).map (fun t => (pf t).getD 0)
      else [0, 0, 0])) ∧
    ((parse_vector3_with pf s).length =
      (if (str_tokens s).all (fun t => (pf t).isSome) then (str_tokens s).length else 3)) := by
  rw [parse_vector3_with, float_list_eq]
  by_cases h : (str_tokens s).all (fun t => (pf t).isSome) <;> simp [h]

/-- Claim C9: `get_root` is deterministic — it returns `none` exactly when
every link's name is some joint's child (vacuously for the zero-link
model), and returns `some n` exactly when the first link in insertion
order that is nobody's child is named `n`; being a total Lean function it
never raises. -/
theorem c9_get_root_characterization (m : URDFModel) :
    (get_root m = none ↔ ∀ l ∈ m.links, l.name ∈ child_names m) ∧
    (∀ n, get_root m = some n ↔
      ∃ pre l post, m.links = pre ++ l :: post ∧ l.name = n ∧ l.name ∉ child_names m ∧
        ∀ lp ∈ pre, lp.name ∈ child_names m) :=
  ⟨find_root_none_iff _ _, fun n => find_root_some_iff _ _ n⟩

/-- Whether a `<parent>`/`<child>` element is present with its `link`
attribute. -/
def joint_link_ok : Option (Option String) → Bool
  | some (some _) => true
  | _ => false

/-- Claim C5 (amended): joint parsing fails exactly when `name`, the
parent link or the child link is missing; `type` is NOT required — it
defaults to `"revolute"` — and with axis/origin elements absent the axis
defaults to `"0 0 1"` and the origin to identity. -/
theorem c5_required_attrs_amended (e : XmlJointElem) :
    ((parse_joint e).toOption.isSome =
      (e.name.isSome && joint_link_ok e.parent && joint_link_ok e.child)) ∧
    (∀ n p c, e.name = some n → e.parent = some (some p) → e.child = some (some c) →
      e.axis = none → e.origin = none →
      parse_joint e = .ok ⟨n, e.type.getD "revolute", p, c, "0 0 1", ⟨"0 0 0", "0 0 0"⟩⟩) := by
  obtain ⟨n, t, p, c, a, o⟩ := e
  constructor
  · rcases n with _ | n <;> rcases p with _ | (_ | p) <;> rcases c with _ | (_ | c) <;>
      simp [parse_joint, joint_link_ok, Except.toOption]
  · rintro n' p' c' rfl rfl rfl rfl rfl
    rfl

/-- A joint element with `name`, parent and child but no `type`
attribute. -/
def c5_elem : XmlJointElem :=
  ⟨some "j", none, some (some "base"), some (some "tool"), none, none⟩

/-- Claim C5 counterexample: a joint element missing the `type` attribute
does not fail — it parses, with the type defaulted to `"revolute"` —
although the claim requires a structural error. -/
theorem c5_missing_type_parses :
    parse_joint c5_elem =
      .ok ⟨"j", "revolute", "base", "tool", "0 0 1", ⟨"0 0 0", "0 0 0"⟩⟩ := rfl

/-- Claim C8: when loading fails with a structural error, the session's
installed model is untouched — the dialog handler only updates the status
texts in its `except` branch. -/
theorem c8_failed_load_keeps_model (st : AppState) (doc : Option XmlRoot) (e : String)
    (h : load_model doc = .error e) :
    (load_urdf_dialog st doc).urdf_model = st.urdf_model := by
  simp [load_urdf_dialog, h]

/-- A previously loaded one-link model and the session state holding it. -/
def c8_prev_model : URDFModel := ⟨[⟨"base", none⟩], [], []⟩

def c8_state : AppState := ⟨some c8_prev_model, "Ready", "No model loaded"⟩

/-- A document whose joint element is missing its required `name`
attribute, so `load_model` raises. -/
def c8_bad_doc : XmlRoot :=
  ⟨[], [⟨some "base", none⟩],
   [⟨none, some "fixed", some (some "base"), some (some "tool"), none, none⟩]⟩

/-- Claim C8 witness: the failed load at a concrete document leaves the
concrete prior model installed. -/
theorem c8_failed_load_keeps_model_witness :
    (load_urdf_dialog c8_state (some c8_bad_doc)).urdf_model = c8_state.urdf_model :=
  c8_failed_load_keeps_model c8_state (some c8_bad_doc) "KeyError: name" rfl

/-- Claim C7 (amended): from any camera state with pitch in the CLOSED
interval `[-89, 89]`, any sequence of orbit drags keeps the pitch in that
closed interval (the clamp runs after every update); the source's
`np.clip` attains the endpoints, so the open interval of the claim is off
by the boundary. -/
theorem c7_pitch_stays_in_closed_interval (cam : Camera)
    (h : cam.pitch ∈ Set.Icc (-89 : ℝ) 89) (moves : List (ℤ × ℤ)) :
    ((moves.foldl (fun c d => mouse_move_orbit c d.1 d.2) cam).pitch ∈
      Set.Icc (-89 : ℝ) 89) := by
  induction moves generalizing cam with
  | nil => exact h
  | cons d ds ih =>
    refine ih (mouse_move_orbit cam d.1 d.2) ?_
    have := clip_pitch_mem (cam.pitch + (d.2 : ℝ) * 0.5)
    exact Set.mem_Icc.mpr ⟨this.1, this.2⟩

/-- Claim C7 witness: a concrete huge drag from the default camera stays
inside the closed interval. -/
theorem c7_pitch_witness :
    ((([((200 : ℤ), (3000 : ℤ))]).foldl (fun c d => mouse_move_orbit c d.1 d.2)
      Camera.init).pitch ∈ Set.Icc (-89 : ℝ) 89) :=
  c7_pitch_stays_in_closed_interval Camera.init
    (Set.mem_Icc.mpr ⟨by norm_num [Camera.init], by norm_num [Camera.init]⟩) _

/-- Claim C7 counterexample: one orbit drag with `dy = 200` from the
default camera (pitch 30, inside the open interval) lands the pitch
exactly on 89, outside the claimed OPEN interval `(-89, 89)`. -/
theorem c7_pitch_hits_89 :
    ¬ ((mouse_move_orbit Camera.init 0 200).pitch ∈ Set.Ioo (-89 : ℝ) 89) := by
  have h : (mouse_move_orbit Camera.init 0 200).pitch = 89 := by
    show clip (Camera.init.pitch + ((200 : ℤ) : ℝ) * 0.5) (-89) 89 = 89
    rw [show Camera.init.pitch = 30 from rfl]
    rw [show (30 : ℝ) + ((200 : ℤ) : ℝ) * 0.5 = 130 by push_cast; norm_num]
    rw [clip, max_eq_left (by norm_num), min_eq_left (by norm_num)]
  intro hmem
  rw [h] at hmem
  exact lt_irrefl _ hmem.2

/-- Claim C3 (amended): after an auto-fit, distance is the scene radius
times the fixed multiplier 2.0 clamped to `[0.1, 5000.0]` and yaw/pitch
are the fixed defaults 45/20 — but the camera center is left exactly as it
was; `auto_fit_camera` never writes it, so it does NOT become the scene
center. -/
theorem c3_auto_fit_fields (m : URDFModel) (provider : String → Option (Vec3 × Vec3))
    (cam : Camera) :
    ((auto_fit_view m provider cam).distance =
      clip ((calculate_scene_bounds m provider).scene_radius * 2.0) 0.1 5000.0) ∧
    ((auto_fit_view m provider cam).yaw = 45) ∧
    ((auto_fit_view m provider cam).pitch = 20) ∧
    ((auto_fit_view m provider cam).center = cam.center) :=
  ⟨rfl, rfl, rfl, rfl⟩

/-- A camera whose orbit center was panned away from the origin. -/
def c3_camera : Camera := ⟨5, 45, 30, (7, 0, 0)⟩

def c3_model : URDFModel := ⟨[], [], []⟩

/-- Claim C3 counterexample: auto-fitting the empty model (scene center
`(0,0,0)`) from a camera centered at `(7,0,0)` leaves the camera center at
`(7,0,0)`, not at the scene center as claimed. -/
theorem c3_center_not_scene_center :
    (auto_fit_view c3_model (fun _ => none) c3_camera).center ≠
      (calculate_scene_bounds c3_model (fun _ => none)).center := by
  have h1 : (auto_fit_view c3_model (fun _ => none) c3_camera).center = (7, 0, 0) := rfl
  have h2 : (calculate_scene_bounds c3_model (fun _ => none)).center = (0, 0, 0) := rfl
  rw [h1, h2]
  intro h
  have : (7 : ℝ) = 0 := congrArg Prod.fst h
  norm_num at this

/-- Claim C6: when no visual contributes an extent — every link has no
visual, or only mesh visuals that are unreferenced or unresolved by the
provider — the scene bounds fall back to center `(0,0,0)` and radius
`1.0`; the zero-link model is the vacuous case. -/
theorem c6_no_extent_default_bounds (m : URDFModel) (provider : String → Option (Vec3 × Vec3))
    (h : ∀ l ∈ m.links, l.visual = none ∨
      ∃ v, l.visual = some v ∧ v.geometry.type = "mesh" ∧
        (v.geometry.filename = "" ∨ provider v.geometry.filename = none)) :
    calculate_scene_bounds m provider = ⟨(0, 0, 0), 1⟩ := by
  have hnil : m.links.filterMap (link_extent provider) = [] := by
    rw [List.filterMap_eq_nil_iff]
    intro l hl
    rcases h l hl with hv | ⟨v, hv, htype, hcase⟩
    · simp [link_extent, hv]
    · rcases hcase with hfn | hpr
      · simp [link_extent, hv, htype, hfn]
      · simp [link_extent, hv, htype]
        intro
        exact hpr
  rw [calculate_scene_bounds, hnil]

/-- A model with a bare link and an unresolved-mesh link. -/
def c6_model : URDFModel :=
  ⟨[⟨"base", none⟩,
    ⟨"head", some ⟨⟨"mesh", "head.stl", [], ""⟩, ⟨"0 0 0", "0 0 0"⟩, none⟩⟩],
   [⟨"j", "fixed", "base", "head", "0 0 1", ⟨"0 0 0", "0 0 0"⟩⟩],
   []⟩

/-- Claim C6 witness: the concrete model with no visual extents (and the
provider that resolves nothing) yields the default bounds. -/
theorem c6_no_extent_default_bounds_witness :
    calculate_scene_bounds c6_model (fun _ => none) = ⟨(0, 0, 0), 1⟩ :=
  c6_no_extent_default_bounds c6_model (fun _ => none) (by
    intro l hl
    rcases List.mem_cons.mp hl with rfl | hl
    · exact Or.inl rfl
    · rcases List.mem_cons.mp hl with rfl | hl
      · exact Or.inr ⟨_, rfl, rfl, Or.inr rfl⟩
      · exact absurd hl (List.not_mem_nil _))

/-! ## Concrete vector evaluations used by the walker claims -/

theorem pv3_zero : parse_vector3 "0 0 0" = [0, 0, 0] := by decide

theorem pv3_z : parse_vector3 "0 0 1" = [0, 0, 1] := by decide

theorem pv3_x : parse_vector3 "1 0 0" = [1, 0, 0] := by decide

theorem vec3_real_zero : vec3_real "0 0 0" = [0, 0, 0] := by
  simp [vec3_real, pv3_zero]

theorem vec3_real_z : vec3_real "0 0 1" = [0, 0, 1] := by
  simp [vec3_real, pv3_z]

theorem vec3_real_x : vec3_real "1 0 0" = [1, 0, 0] := by
  simp [vec3_real, pv3_x]

theorem rpy_to_matrix_zero : rpy_to_matrix 0 0 0 = 1 := by
  rw [rpy_to_matrix]
  ext <;>
    simp [M3.mul_def, M3.mul, M3.one_def, Real.cos_zero, Real.sin_zero]

theorem create_transform_zero : create_transform [0, 0, 0] [0, 0, 0] = some (1 : M4) := by
  simp [create_transform, rpy_to_matrix_zero, M3.one_def, M4.one_unfold]

theorem vec_norm_z : vec_norm [(0 : ℝ), 0, 1] = 1 := by
  have h : (([(0 : ℝ), 0, 1]).map (fun x => x * x)).sum = 1 := by norm_num
  rw [vec_norm, h, Real.sqrt_one]

/-- The single revolute joint of the composition-order property: axis
`(0,0,1)`, identity static origin. -/
def c1_joint : URDFJoint :=
  ⟨"joint1", "revolute", "world", "tool", "0 0 1", ⟨"0 0 0", "0 0 0"⟩⟩

/-- Claim C1: for a revolute joint with axis `(0,0,1)`, identity static
origin and identity parent transform, the child world transform the
walker's joint step produces at parameter `θ` is exactly the closed-form
axis-angle (Rodrigues) rotation about Z by `θ`, composed as
`parent · static origin · actuation`. -/
theorem c1_revolute_z_axis_angle (θ : ℝ) :
    compute_joint_transform [("joint1", θ)] c1_joint 1 =
      some (to_homogeneous (axis_angle 0 0 1 θ)) := by
  rw [compute_joint_transform]
  simp only [c1_joint, vec3_real_zero, vec3_real_z, create_transform_zero, M4.one_mul,
    vec_norm_z, List.lookup, ne_eq, String.reduceEq, not_false_eq_true, if_true,
    reduceIte, Option.getD_some, beq_self_eq_true]
  rw [if_pos (Or.inl trivial), if_pos (by norm_num : (1e-6 : ℝ) < 1)]
  simp only [zero_div, div_one]
  congr 1
  ext <;>
    simp [joint_rotation, to_homogeneous, axis_angle, skew3, outer3,
      M3.smul_def, M3.smul, M3.add_def, M3.add, M3.one_def]

/-- A fixed-type joint with default axis and identity origin contributes
no transform beyond the incoming one. -/
theorem compute_fixed_default (angles : List (String × ℝ)) (name parent child : String)
    (cur : M4) :
    compute_joint_transform angles ⟨name, "fixed", parent, child, "0 0 1", ⟨"0 0 0", "0 0 0"⟩⟩
      cur = some cur := by
  rw [compute_joint_transform]
  simp [vec3_real_zero, create_transform_zero, M4.mul_one]

def trans_x1 : M4 := ⟨1, 0, 0, 1, 0, 1, 0, 0, 0, 0, 1, 0, 0, 0, 0, 1⟩

theorem create_transform_x1 : create_transform [(1 : ℝ), 0, 0] [0, 0, 0] = some trans_x1 := by
  simp [create_transform, rpy_to_matrix_zero, M3.one_def, trans_x1]

def c2_base_visual : URDFVisual :=
  ⟨⟨"box", "", ["1", "1", "1"], ""⟩, ⟨"1 0 0", "0 0 0"⟩, none⟩

def c2_child_visual : URDFVisual :=
  ⟨⟨"box", "", ["1", "1", "1"], ""⟩, ⟨"0 0 0", "0 0 0"⟩, none⟩

/-- Parent link with a translated visual origin, fixed joint to a child
whose own origins are all identity. -/
def c2_model : URDFModel :=
  ⟨[⟨"base", some c2_base_visual⟩, ⟨"child", some c2_child_visual⟩],
   [⟨"jfix", "fixed", "base", "child", "0 0 1", ⟨"0 0 0", "0 0 0"⟩⟩],
   []⟩

/-- Claim C2: evaluating the traversal at the failing input — the parent
link's visual origin translates by `(1,0,0)`, the joint is fixed with
identity origin, so the child's transform should be the identity — shows
the child drawn at the translated transform: the parent's visual origin
leaks into the child because `_draw_link` reuses `current_transform`. -/
theorem c2_visual_origin_leaks_into_child :
    draw_link c2_model [] 3 "base" 1 = some [("base", trans_x1), ("child", trans_x1)] ∧
    trans_x1 ≠ 1 := by
  constructor
  · rw [show (3 : ℕ) = 2 + 1 from rfl, draw_link]
    simp only [c2_model, c2_base_visual, c2_child_visual, List.find?, decide_True,
      String.reduceEq, decide_False, ne_eq, not_false_eq_true, if_true, reduceIte,
      vec3_real_x, vec3_real_zero, create_transform_x1, M4.one_mul, get_joints]
    rw [draw_joints]
    simp only [String.reduceEq, reduceIte, compute_fixed_default]
    rw [show (2 : ℕ) = 1 + 1 from rfl, draw_link]
    simp only [List.find?, decide_True, decide_False, String.reduceEq, ne_eq,
      not_false_eq_true, if_true, reduceIte, vec3_real_zero, create_transform_zero,
      M4.mul_one, get_joints]
    rw [draw_joints]
    simp [draw_joints]
  · intro h
    have h03 : trans_x1.b03 = (1 : M4).b03 := congrArg M4.b03 h
    rw [trans_x1, M4.one_unfold] at h03
    norm_num at h03

/-- Links R, A, B with joints R→A, A→B and B→A: the joint set reachable
from the derived root R contains a cycle. -/
def c4_model : URDFModel :=
  ⟨[⟨"R", none⟩, ⟨"A", none⟩, ⟨"B", none⟩],
   [⟨"j1", "fixed", "R", "A", "0 0 1", ⟨"0 0 0", "0 0 0"⟩⟩,
    ⟨"j2", "fixed", "A", "B", "0 0 1", ⟨"0 0 0", "0 0 0"⟩⟩,
    ⟨"j3", "fixed", "B", "A", "0 0 1", ⟨"0 0 0", "0 0 0"⟩⟩],
   []⟩

/-- On the cyclic model, entering either cycle link exhausts any recursion
budget: the traversal keeps recursing A→B→A→… -/
theorem c4_cycle_stuck (n : ℕ) :
    (∀ T, draw_link c4_model [] n "A" T = none) ∧
    (∀ T, draw_link c4_model [] n "B" T = none) := by
  induction n with
  | zero => exact ⟨fun T => rfl, fun T => rfl⟩
  | succ n ih =>
    simp only [c4_model] at ih
    constructor
    · intro T
      rw [draw_link]
      simp only [c4_model, List.find?, decide_True, decide_False, String.reduceEq,
        get_joints]
      rw [draw_joints]
      simp only [String.reduceEq, reduceIte]
      rw [draw_joints]
      simp only [String.reduceEq, reduceIte, compute_fixed_default, ih.2]
    · intro T
      rw [draw_link]
      simp only [c4_model, List.find?, decide_True, decide_False, String.reduceEq,
        get_joints]
      rw [draw_joints]
      simp only [String.reduceEq, reduceIte]
      rw [draw_joints]
      simp only [String.reduceEq, reduceIte]
      rw [draw_joints]
      simp only [String.reduceEq, reduceIte, compute_fixed_default, ih.1]

/-- Claim C4 (amended): the traversal tracks no visited-link set; on a
model whose derived root reaches a joint cycle (A→B→A), entering a cycle
link never completes for ANY recursion budget — the source recursion is
unbounded there (a Python `RecursionError`), it does not skip revisited
links. -/
theorem c4_cycle_never_completes (n : ℕ) (T : M4) :
    draw_link c4_model [] n "A" T = none ∧ draw_link c4_model [] n "B" T = none :=
  ⟨(c4_cycle_stuck n).1 T, (c4_cycle_stuck n).2 T⟩

/-- Claim C4 counterexample: on the concrete cyclic model the derived root
is R, yet the traversal from R fails to complete at every recursion
budget, where a visited-set traversal that skips revisits would finish —
refuting the claim that cycles are guarded by visited-link tracking. -/
theorem c4_traversal_counterexample :
    get_root c4_model = some "R" ∧
    (fun n => draw_link c4_model [] n "R" 1) = (fun _ => none) := by
  refine ⟨rfl, funext fun n => ?_⟩
  cases n with
  | zero => rfl
  | succ n =>
    have h := (c4_cycle_stuck n).1
    simp only [c4_model] at h
    rw [draw_link]
    simp only [c4_model, List.find?, decide_True, decide_False, String.reduceEq,
      get_joints]
    rw [draw_joints]
    simp only [String.reduceEq, reduceIte, compute_fixed_default, h]
